import Mathlib

/-!
Shallow embedding of src/context/capabilities.rs (capability resolution for an
OpenGL context) and proofs about it. Queries against the native driver are
modelled as a pure oracle (structure Gl); every field computation returns its
resolved value together with the list of queries it issued, so call-count
properties are provable. Panics (the unreachable! arms of enum decoding) are
modelled as Option.none.
-/

/-- Modelled from the spec: the API kind, desktop (Gl) or embedded (GlEs).
The defining enum lives in version.rs, which is not part of the sources here. -/
inductive Api where
  | Gl : Api
  | GlEs : Api
deriving DecidableEq, Repr

/-- Modelled from the spec: a context version, (API kind, major, minor).
The defining struct lives in version.rs, which is not part of the sources here. -/
structure Version where
  api : Api
  major : Nat
  minor : Nat
deriving DecidableEq, Repr

/-- Modelled from the spec: the >= comparison on versions. Versions are totally
ordered within the same API kind, lexicographically on (major, minor);
a comparison across different API kinds never holds. -/
def vge (a b : Version) : Bool :=
  decide (a.api = b.api) &&
    (decide (b.major < a.major) || (decide (a.major = b.major) && decide (b.minor ≤ a.minor)))

/-- Modelled from the spec: the <= comparison on versions (same-kind, lexicographic). -/
def vle (a b : Version) : Bool := vge b a

/-- Modelled from the spec: the strict < comparison on versions (same-kind, lexicographic). -/
def vlt (a b : Version) : Bool :=
  decide (a.api = b.api) &&
    (decide (a.major < b.major) || (decide (a.major = b.major) && decide (a.minor < b.minor)))

/-- Modelled from the spec: structural equality of versions. -/
def veq (a b : Version) : Bool := decide (a = b)

/-- Modelled from the spec: the extension presence booleans (ExtensionsList is
declared in the context module, not part of the sources here); only the fields
read by capabilities.rs appear. -/
structure ExtensionsList where
  gl_arb_robustness : Bool
  gl_khr_robustness : Bool
  gl_ext_robustness : Bool
  gl_khr_context_flush_control : Bool
  gl_ext_framebuffer_srgb : Bool
  gl_arb_compatibility : Bool
  gl_ext_texture_filter_anisotropic : Bool
  gl_arb_texture_buffer_object : Bool
  gl_ext_texture_buffer_object : Bool
  gl_oes_texture_buffer : Bool
  gl_ext_texture_buffer : Bool
  gl_ati_draw_buffers : Bool
  gl_arb_draw_buffers : Bool
  gl_arb_tessellation_shader : Bool
  gl_arb_shader_storage_buffer_object : Bool
  gl_arb_transform_feedback3 : Bool
  gl_ext_transform_feedback : Bool
  gl_arb_uniform_buffer_object : Bool
  gl_arb_compute_shader : Bool
  gl_arb_es2_compatibility : Bool
  gl_arb_es3_compatibility : Bool
  gl_arb_es3_1_compatibility : Bool
  gl_arb_es3_2_compatibility : Bool
deriving DecidableEq, Repr

/-- Token GL_RENDERER. -/
def GL_RENDERER : Nat := 0x1F01

/-- Token GL_CONTEXT_FLAGS. -/
def GL_CONTEXT_FLAGS : Nat := 0x821E

/-- Bit GL_CONTEXT_FLAG_ROBUST_ACCESS_BIT. -/
def GL_CONTEXT_FLAG_ROBUST_ACCESS_BIT : Nat := 0x00000004

/-- Token GL_CONTEXT_ROBUST_ACCESS. -/
def GL_CONTEXT_ROBUST_ACCESS : Nat := 0x90F3

/-- Token GL_RESET_NOTIFICATION_STRATEGY. -/
def GL_RESET_NOTIFICATION_STRATEGY : Nat := 0x8256

/-- Value GL_LOSE_CONTEXT_ON_RESET. -/
def GL_LOSE_CONTEXT_ON_RESET : Nat := 0x8252

/-- Value GL_NO_RESET_NOTIFICATION. -/
def GL_NO_RESET_NOTIFICATION : Nat := 0x8261

/-- Token GL_CONTEXT_RELEASE_BEHAVIOR. -/
def GL_CONTEXT_RELEASE_BEHAVIOR : Nat := 0x82FB

/-- Value GL_NONE. -/
def GL_NONE : Nat := 0

/-- Value GL_CONTEXT_RELEASE_BEHAVIOR_FLUSH. -/
def GL_CONTEXT_RELEASE_BEHAVIOR_FLUSH : Nat := 0x82FC

/-- Token GL_STEREO. -/
def GL_STEREO : Nat := 0x0C33

/-- Target GL_FRAMEBUFFER. -/
def GL_FRAMEBUFFER : Nat := 0x8D40

/-- Attachment GL_BACK_LEFT. -/
def GL_BACK_LEFT : Nat := 0x0402

/-- Pname GL_FRAMEBUFFER_ATTACHMENT_COLOR_ENCODING. -/
def GL_FRAMEBUFFER_ATTACHMENT_COLOR_ENCODING : Nat := 0x8210

/-- Value GL_SRGB. -/
def GL_SRGB : Nat := 0x8C40

/-- Token GL_FRAMEBUFFER_SRGB_CAPABLE_EXT. -/
def GL_FRAMEBUFFER_SRGB_CAPABLE_EXT : Nat := 0x8DBA

/-- Attachment GL_DEPTH. -/
def GL_DEPTH : Nat := 0x1801

/-- Attachment GL_STENCIL. -/
def GL_STENCIL : Nat := 0x1802

/-- Pname GL_FRAMEBUFFER_ATTACHMENT_OBJECT_TYPE. -/
def GL_FRAMEBUFFER_ATTACHMENT_OBJECT_TYPE : Nat := 0x8CD0

/-- Pname GL_FRAMEBUFFER_ATTACHMENT_DEPTH_SIZE. -/
def GL_FRAMEBUFFER_ATTACHMENT_DEPTH_SIZE : Nat := 0x8216

/-- Pname GL_FRAMEBUFFER_ATTACHMENT_STENCIL_SIZE. -/
def GL_FRAMEBUFFER_ATTACHMENT_STENCIL_SIZE : Nat := 0x8217

/-- Token GL_DEPTH_BITS. -/
def GL_DEPTH_BITS : Nat := 0x0D56

/-- Token GL_STENCIL_BITS. -/
def GL_STENCIL_BITS : Nat := 0x0D57

/-- Token GL_MAX_COMBINED_TEXTURE_IMAGE_UNITS. -/
def GL_MAX_COMBINED_TEXTURE_IMAGE_UNITS : Nat := 0x8B4D

/-- Token GL_MAX_TEXTURE_MAX_ANISOTROPY_EXT. -/
def GL_MAX_TEXTURE_MAX_ANISOTROPY_EXT : Nat := 0x84FF

/-- Token GL_MAX_TEXTURE_BUFFER_SIZE. -/
def GL_MAX_TEXTURE_BUFFER_SIZE : Nat := 0x8C2B

/-- Token GL_MAX_VIEWPORT_DIMS. -/
def GL_MAX_VIEWPORT_DIMS : Nat := 0x0D3A

/-- Token GL_MAX_DRAW_BUFFERS. -/
def GL_MAX_DRAW_BUFFERS : Nat := 0x8824

/-- Token GL_MAX_PATCH_VERTICES. -/
def GL_MAX_PATCH_VERTICES : Nat := 0x8E7D

/-- Token GL_MAX_ATOMIC_COUNTER_BUFFER_BINDINGS. -/
def GL_MAX_ATOMIC_COUNTER_BUFFER_BINDINGS : Nat := 0x92DC

/-- Token GL_MAX_SHADER_STORAGE_BUFFER_BINDINGS. -/
def GL_MAX_SHADER_STORAGE_BUFFER_BINDINGS : Nat := 0x90DD

/-- Token GL_MAX_TRANSFORM_FEEDBACK_BUFFERS. -/
def GL_MAX_TRANSFORM_FEEDBACK_BUFFERS : Nat := 0x8E70

/-- Token GL_MAX_TRANSFORM_FEEDBACK_SEPARATE_ATTRIBS_EXT. -/
def GL_MAX_TRANSFORM_FEEDBACK_SEPARATE_ATTRIBS_EXT : Nat := 0x8C8B

/-- Token GL_MAX_UNIFORM_BUFFER_BINDINGS. -/
def GL_MAX_UNIFORM_BUFFER_BINDINGS : Nat := 0x8A2F

/-- Token GL_MAX_COMPUTE_WORK_GROUP_COUNT. -/
def GL_MAX_COMPUTE_WORK_GROUP_COUNT : Nat := 0x91BE

/-- Token GL_SHADER_COMPILER. -/
def GL_SHADER_COMPILER : Nat := 0x8DFA


/-- Conversion of a queried GLint to GLenum, the Rust cast i32 as u32. -/
def toGLenum (v : Int) : Nat := (v % 4294967296).toNat

/-- Conversion of a queried GLint to u16, the Rust cast i32 as u16. -/
def toU16 (v : Int) : Nat := (v % 65536).toNat

/-- Substring containment on strings, the Rust str contains used on the
renderer string. -/
def strContains (hay pat : String) : Bool := decide (pat.data <:+: hay.data)

/-- The value-query collaborator: each native glGet call is a pure function of
its token(s). GetIntegerv on a two-element token is modelled by getIntegerv2
returning the pair the call writes. Floats carry no arithmetic here and are
modelled as abstract integer-coded values. -/
structure Gl where
  getString : Nat → String
  getIntegerv : Nat → Int
  getIntegerv2 : Nat → Int × Int
  getBooleanv : Nat → Nat
  getFloatv : Nat → Int
  getIntegeri : Nat → Nat → Int
  getFBParam : Nat → Nat → Nat → Int

/-- One query issued against the collaborator, recorded for call-count
reasoning. -/
inductive Query where
  | getString : Nat → Query
  | getIntegerv : Nat → Query
  | getBooleanv : Nat → Query
  | getFloatv : Nat → Query
  | getIntegeri : Nat → Nat → Query
  | getFBParam : Nat → Nat → Nat → Query
deriving DecidableEq, Repr

/-- Whether a query is a glGetFramebufferAttachmentParameteriv call. -/
def Query.isFBParam : Query → Bool
  | Query.getFBParam _ _ _ => true
  | _ => false

/-- Mirrors the enum ReleaseBehavior of capabilities.rs. -/
inductive ReleaseBehavior where
  | None : ReleaseBehavior
  | Flush : ReleaseBehavior
deriving DecidableEq, Repr

/-- Decoding of a depth-bits or stencil-bits GLint: 0 becomes None, anything
else Some of the u16 cast (the match at the end of those two fields). -/
def bitsOfValue (value : Int) : Option Nat :=
  if value = 0 then none else some (toU16 value)

/-- Field robustness of get_capabilities: context-flags path for new versions
(or desktop 3.0 plus gl_arb_robustness), boolean-query path for the khr/ext
robustness extensions, else false. -/
def robustness_field (g : Gl) (version : Version) (extensions : ExtensionsList) :
    Bool × List Query :=
  if vge version ⟨Api.Gl, 4, 5⟩ || vge version ⟨Api.GlEs, 3, 2⟩ ||
     (vge version ⟨Api.Gl, 3, 0⟩ && extensions.gl_arb_robustness) then
    let val := g.getIntegerv GL_CONTEXT_FLAGS
    (Nat.land (toGLenum val) GL_CONTEXT_FLAG_ROBUST_ACCESS_BIT != 0,
     [Query.getIntegerv GL_CONTEXT_FLAGS])
  else if extensions.gl_khr_robustness || extensions.gl_ext_robustness then
    (g.getBooleanv GL_CONTEXT_ROBUST_ACCESS != 0,
     [Query.getBooleanv GL_CONTEXT_ROBUST_ACCESS])
  else
    (false, [])

/-- Field can_lose_context of get_capabilities: when the gate is open, decode
the reset-notification strategy; the undocumented vendor value 0x31BE decodes
to false; any other unknown value is the unreachable! panic, modelled none. -/
def can_lose_context_field (g : Gl) (version : Version) (extensions : ExtensionsList) :
    Option Bool × List Query :=
  if vge version ⟨Api.Gl, 4, 5⟩ || extensions.gl_khr_robustness ||
     extensions.gl_arb_robustness || extensions.gl_ext_robustness then
    let val := g.getIntegerv GL_RESET_NOTIFICATION_STRATEGY
    (if toGLenum val = GL_LOSE_CONTEXT_ON_RESET then some true
     else if toGLenum val = GL_NO_RESET_NOTIFICATION then some false
     else if toGLenum val = 0x31BE then some false
     else none,
     [Query.getIntegerv GL_RESET_NOTIFICATION_STRATEGY])
  else
    (some false, [])

/-- Field release_behavior of get_capabilities: decode the queried token when
gl_khr_context_flush_control is present (unknown token is the unreachable!
panic, modelled none); fall back to Flush otherwise. -/
def release_behavior_field (g : Gl) (extensions : ExtensionsList) :
    Option ReleaseBehavior × List Query :=
  if extensions.gl_khr_context_flush_control then
    let val := g.getIntegerv GL_CONTEXT_RELEASE_BEHAVIOR
    (if toGLenum val = GL_NONE then some ReleaseBehavior.None
     else if toGLenum val = GL_CONTEXT_RELEASE_BEHAVIOR_FLUSH then some ReleaseBehavior.Flush
     else none,
     [Query.getIntegerv GL_CONTEXT_RELEASE_BEHAVIOR])
  else
    (some ReleaseBehavior.Flush, [])

/-- Field stereo of get_capabilities. -/
def stereo_field (g : Gl) (version : Version) : Bool × List Query :=
  if vge version ⟨Api.Gl, 1, 0⟩ then
    (g.getBooleanv GL_STEREO != 0, [Query.getBooleanv GL_STEREO])
  else
    (false, [])

/-- Field srgb of get_capabilities: framebuffer-attachment color-encoding path
when version is at least desktop 3.0 and gl_ext_framebuffer_srgb is absent,
boolean-query path when that extension is present, else false. -/
def srgb_field (g : Gl) (version : Version) (extensions : ExtensionsList) :
    Bool × List Query :=
  if vge version ⟨Api.Gl, 3, 0⟩ && !extensions.gl_ext_framebuffer_srgb then
    let value := g.getFBParam GL_FRAMEBUFFER GL_BACK_LEFT GL_FRAMEBUFFER_ATTACHMENT_COLOR_ENCODING
    (decide (toGLenum value = GL_SRGB),
     [Query.getFBParam GL_FRAMEBUFFER GL_BACK_LEFT GL_FRAMEBUFFER_ATTACHMENT_COLOR_ENCODING])
  else if extensions.gl_ext_framebuffer_srgb then
    (g.getBooleanv GL_FRAMEBUFFER_SRGB_CAPABLE_EXT != 0,
     [Query.getBooleanv GL_FRAMEBUFFER_SRGB_CAPABLE_EXT])
  else
    (false, [])

/-- Field depth_bits of get_capabilities: on the framebuffer-attachment path a
type probe of the DEPTH attachment comes first; NONE short-circuits to value 0
with no size query, otherwise the depth-size query runs; the legacy path is a
single GL_DEPTH_BITS query. -/
def depth_bits_field (g : Gl) (version : Version) (extensions : ExtensionsList) :
    Option Nat × List Query :=
  if vge version ⟨Api.Gl, 3, 0⟩ && !extensions.gl_arb_compatibility then
    let ty := g.getFBParam GL_FRAMEBUFFER GL_DEPTH GL_FRAMEBUFFER_ATTACHMENT_OBJECT_TYPE
    if toGLenum ty = GL_NONE then
      (bitsOfValue 0,
       [Query.getFBParam GL_FRAMEBUFFER GL_DEPTH GL_FRAMEBUFFER_ATTACHMENT_OBJECT_TYPE])
    else
      (bitsOfValue (g.getFBParam GL_FRAMEBUFFER GL_DEPTH GL_FRAMEBUFFER_ATTACHMENT_DEPTH_SIZE),
       [Query.getFBParam GL_FRAMEBUFFER GL_DEPTH GL_FRAMEBUFFER_ATTACHMENT_OBJECT_TYPE,
        Query.getFBParam GL_FRAMEBUFFER GL_DEPTH GL_FRAMEBUFFER_ATTACHMENT_DEPTH_SIZE])
  else
    (bitsOfValue (g.getIntegerv GL_DEPTH_BITS), [Query.getIntegerv GL_DEPTH_BITS])

/-- Field stencil_bits of get_capabilities: same shape as depth_bits with the
STENCIL attachment and tokens. -/
def stencil_bits_field (g : Gl) (version : Version) (extensions : ExtensionsList) :
    Option Nat × List Query :=
  if vge version ⟨Api.Gl, 3, 0⟩ && !extensions.gl_arb_compatibility then
    let ty := g.getFBParam GL_FRAMEBUFFER GL_STENCIL GL_FRAMEBUFFER_ATTACHMENT_OBJECT_TYPE
    if toGLenum ty = GL_NONE then
      (bitsOfValue 0,
       [Query.getFBParam GL_FRAMEBUFFER GL_STENCIL GL_FRAMEBUFFER_ATTACHMENT_OBJECT_TYPE])
    else
      (bitsOfValue (g.getFBParam GL_FRAMEBUFFER GL_STENCIL GL_FRAMEBUFFER_ATTACHMENT_STENCIL_SIZE),
       [Query.getFBParam GL_FRAMEBUFFER GL_STENCIL GL_FRAMEBUFFER_ATTACHMENT_OBJECT_TYPE,
        Query.getFBParam GL_FRAMEBUFFER GL_STENCIL GL_FRAMEBUFFER_ATTACHMENT_STENCIL_SIZE])
  else
    (bitsOfValue (g.getIntegerv GL_STENCIL_BITS), [Query.getIntegerv GL_STENCIL_BITS])

/-- Field max_combined_texture_image_units of get_capabilities: the queried
value, clamped to 32 when the renderer string contains Radeon (work-around for
issue 1181). -/
def max_combined_texture_image_units_field (g : Gl) (renderer : String) :
    Int × List Query :=
  let val := g.getIntegerv GL_MAX_COMBINED_TEXTURE_IMAGE_UNITS
  (if strContains renderer "Radeon" then min val 32 else val,
   [Query.getIntegerv GL_MAX_COMBINED_TEXTURE_IMAGE_UNITS])

/-- Field max_texture_max_anisotropy of get_capabilities. -/
def max_texture_max_anisotropy_field (g : Gl) (extensions : ExtensionsList) :
    Option Int × List Query :=
  if !extensions.gl_ext_texture_filter_anisotropic then
    (none, [])
  else
    (some (g.getFloatv GL_MAX_TEXTURE_MAX_ANISOTROPY_EXT),
     [Query.getFloatv GL_MAX_TEXTURE_MAX_ANISOTROPY_EXT])

/-- Field max_texture_buffer_size of get_capabilities. -/
def max_texture_buffer_size_field (g : Gl) (version : Version) (extensions : ExtensionsList) :
    Option Int × List Query :=
  if vge version ⟨Api.Gl, 3, 0⟩ || extensions.gl_arb_texture_buffer_object ||
     extensions.gl_ext_texture_buffer_object || extensions.gl_oes_texture_buffer ||
     extensions.gl_ext_texture_buffer then
    (some (g.getIntegerv GL_MAX_TEXTURE_BUFFER_SIZE),
     [Query.getIntegerv GL_MAX_TEXTURE_BUFFER_SIZE])
  else
    (none, [])

/-- Field max_viewport_dims of get_capabilities: one two-element GetIntegerv. -/
def max_viewport_dims_field (g : Gl) : (Int × Int) × List Query :=
  (g.getIntegerv2 GL_MAX_VIEWPORT_DIMS, [Query.getIntegerv GL_MAX_VIEWPORT_DIMS])

/-- Field max_draw_buffers of get_capabilities: fallback constant 1 when no
gate matches. -/
def max_draw_buffers_field (g : Gl) (version : Version) (extensions : ExtensionsList) :
    Int × List Query :=
  if vge version ⟨Api.Gl, 2, 0⟩ || vge version ⟨Api.GlEs, 3, 0⟩ ||
     extensions.gl_ati_draw_buffers || extensions.gl_arb_draw_buffers then
    (g.getIntegerv GL_MAX_DRAW_BUFFERS, [Query.getIntegerv GL_MAX_DRAW_BUFFERS])
  else
    (1, [])

/-- Field max_patch_vertices of get_capabilities. -/
def max_patch_vertices_field (g : Gl) (version : Version) (extensions : ExtensionsList) :
    Option Int × List Query :=
  if vge version ⟨Api.Gl, 4, 0⟩ || extensions.gl_arb_tessellation_shader then
    (some (g.getIntegerv GL_MAX_PATCH_VERTICES), [Query.getIntegerv GL_MAX_PATCH_VERTICES])
  else
    (none, [])

/-- Field max_indexed_atomic_counter_buffer of get_capabilities: gated solely
on version at least desktop 4.2, fallback 0. -/
def max_indexed_atomic_counter_buffer_field (g : Gl) (version : Version) :
    Int × List Query :=
  if vge version ⟨Api.Gl, 4, 2⟩ then
    (g.getIntegerv GL_MAX_ATOMIC_COUNTER_BUFFER_BINDINGS,
     [Query.getIntegerv GL_MAX_ATOMIC_COUNTER_BUFFER_BINDINGS])
  else
    (0, [])

/-- Field max_indexed_shader_storage_buffer of get_capabilities. -/
def max_indexed_shader_storage_buffer_field (g : Gl) (version : Version)
    (extensions : ExtensionsList) : Int × List Query :=
  if vge version ⟨Api.Gl, 4, 3⟩ || extensions.gl_arb_shader_storage_buffer_object then
    (g.getIntegerv GL_MAX_SHADER_STORAGE_BUFFER_BINDINGS,
     [Query.getIntegerv GL_MAX_SHADER_STORAGE_BUFFER_BINDINGS])
  else
    (0, [])

/-- Field max_indexed_transform_feedback_buffer of get_capabilities: newer
unified token first, the older separate-attribs token second, fallback 0. -/
def max_indexed_transform_feedback_buffer_field (g : Gl) (version : Version)
    (extensions : ExtensionsList) : Int × List Query :=
  if vge version ⟨Api.Gl, 4, 0⟩ || extensions.gl_arb_transform_feedback3 then
    (g.getIntegerv GL_MAX_TRANSFORM_FEEDBACK_BUFFERS,
     [Query.getIntegerv GL_MAX_TRANSFORM_FEEDBACK_BUFFERS])
  else if vge version ⟨Api.Gl, 3, 0⟩ || extensions.gl_ext_transform_feedback then
    (g.getIntegerv GL_MAX_TRANSFORM_FEEDBACK_SEPARATE_ATTRIBS_EXT,
     [Query.getIntegerv GL_MAX_TRANSFORM_FEEDBACK_SEPARATE_ATTRIBS_EXT])
  else
    (0, [])

/-- Field max_indexed_uniform_buffer of get_capabilities. -/
def max_indexed_uniform_buffer_field (g : Gl) (version : Version)
    (extensions : ExtensionsList) : Int × List Query :=
  if vge version ⟨Api.Gl, 3, 1⟩ || extensions.gl_arb_uniform_buffer_object then
    (g.getIntegerv GL_MAX_UNIFORM_BUFFER_BINDINGS,
     [Query.getIntegerv GL_MAX_UNIFORM_BUFFER_BINDINGS])
  else
    (0, [])

/-- Field max_compute_work_group_count of get_capabilities: three indexed
queries assembled into a triple, fallback (0, 0, 0). -/
def max_compute_work_group_count_field (g : Gl) (version : Version)
    (extensions : ExtensionsList) : (Int × Int × Int) × List Query :=
  if vge version ⟨Api.Gl, 4, 3⟩ || vge version ⟨Api.GlEs, 3, 1⟩ ||
     extensions.gl_arb_compute_shader then
    ((g.getIntegeri GL_MAX_COMPUTE_WORK_GROUP_COUNT 0,
      g.getIntegeri GL_MAX_COMPUTE_WORK_GROUP_COUNT 1,
      g.getIntegeri GL_MAX_COMPUTE_WORK_GROUP_COUNT 2),
     [Query.getIntegeri GL_MAX_COMPUTE_WORK_GROUP_COUNT 0,
      Query.getIntegeri GL_MAX_COMPUTE_WORK_GROUP_COUNT 1,
      Query.getIntegeri GL_MAX_COMPUTE_WORK_GROUP_COUNT 2])
  else
    ((0, 0, 0), [])

/-- The table of GLSL-version pushes of get_supported_glsl, applied to an
empty accumulator; table order is output order. The final loop over
(3,3) .. (4,5) is the fold at the end. -/
def glsl_version_table (version : Version) (extensions : ExtensionsList) : List Version :=
  let r := ([] : List Version)
  let r := if vge version ⟨Api.GlEs, 2, 0⟩ || vge version ⟨Api.Gl, 4, 1⟩ ||
              extensions.gl_arb_es2_compatibility then r ++ [⟨Api.GlEs, 1, 0⟩] else r
  let r := if vge version ⟨Api.GlEs, 3, 0⟩ || vge version ⟨Api.Gl, 4, 3⟩ ||
              extensions.gl_arb_es3_compatibility then r ++ [⟨Api.GlEs, 3, 0⟩] else r
  let r := if vge version ⟨Api.GlEs, 3, 1⟩ || vge version ⟨Api.Gl, 4, 5⟩ ||
              extensions.gl_arb_es3_1_compatibility then r ++ [⟨Api.GlEs, 3, 1⟩] else r
  let r := if vge version ⟨Api.GlEs, 3, 2⟩ || extensions.gl_arb_es3_2_compatibility then
              r ++ [⟨Api.GlEs, 3, 2⟩] else r
  let r := if (vge version ⟨Api.Gl, 2, 0⟩ && vle version ⟨Api.Gl, 3, 0⟩) ||
              extensions.gl_arb_compatibility then r ++ [⟨Api.Gl, 1, 1⟩] else r
  let r := if (vge version ⟨Api.Gl, 2, 1⟩ && vle version ⟨Api.Gl, 3, 0⟩) ||
              extensions.gl_arb_compatibility then r ++ [⟨Api.Gl, 1, 2⟩] else r
  let r := if veq version ⟨Api.Gl, 3, 0⟩ || extensions.gl_arb_compatibility then
              r ++ [⟨Api.Gl, 1, 3⟩] else r
  let r := if vge version ⟨Api.Gl, 3, 1⟩ then r ++ [⟨Api.Gl, 1, 4⟩] else r
  let r := if vge version ⟨Api.Gl, 3, 2⟩ then r ++ [⟨Api.Gl, 1, 5⟩] else r
  [(3, 3), (4, 0), (4, 1), (4, 2), (4, 3), (4, 4), (4, 5)].foldl
    (fun acc p =>
      if vge version ⟨Api.Gl, p.1, p.2⟩ then acc ++ [⟨Api.Gl, p.1, p.2⟩] else acc) r

/-- Mirrors get_supported_glsl of capabilities.rs: on the embedded profile the
shader-compiler probe comes first and its absence returns the empty list at
once; otherwise the push table runs. (The version-4.3 fast path in the source
is an unimplemented no-op and falls through to the table.) -/
def get_supported_glsl (g : Gl) (version : Version) (extensions : ExtensionsList) :
    List Version × List Query :=
  let probe : List Query :=
    if version.api = Api.GlEs then [Query.getBooleanv GL_SHADER_COMPILER] else []
  if version.api = Api.GlEs ∧ g.getBooleanv GL_SHADER_COMPILER = 0 then
    ([], probe)
  else
    (glsl_version_table version extensions, probe)

/-- Mirrors the struct Capabilities of capabilities.rs. GLint is modelled as
Int; the u16 bit counts as Nat; the float anisotropy limit as an abstract
integer-coded value. -/
structure Capabilities where
  supported_glsl_versions : List Version
  robustness : Bool
  can_lose_context : Bool
  release_behavior : ReleaseBehavior
  stereo : Bool
  srgb : Bool
  depth_bits : Option Nat
  stencil_bits : Option Nat
  max_combined_texture_image_units : Int
  max_texture_max_anisotropy : Option Int
  max_texture_buffer_size : Option Int
  max_viewport_dims : Int × Int
  max_draw_buffers : Int
  max_patch_vertices : Option Int
  max_indexed_atomic_counter_buffer : Int
  max_indexed_shader_storage_buffer : Int
  max_indexed_transform_feedback_buffer : Int
  max_indexed_uniform_buffer : Int
  max_compute_work_group_count : Int × Int × Int
deriving DecidableEq, Repr

/-- Mirrors get_capabilities of capabilities.rs: fetch the renderer string
first, then resolve every field in struct-literal order; the two fields whose
enum decoding can hit unreachable! make the whole computation none there. The
second component is the full query trace in issue order. -/
def get_capabilities (g : Gl) (version : Version) (extensions : ExtensionsList) :
    Option (Capabilities × List Query) :=
  let renderer := g.getString GL_RENDERER
  let glsl := get_supported_glsl g version extensions
  let rob := robustness_field g version extensions
  let clc := can_lose_context_field g version extensions
  let rel := release_behavior_field g extensions
  let ste := stereo_field g version
  let srg := srgb_field g version extensions
  let dep := depth_bits_field g version extensions
  let sten := stencil_bits_field g version extensions
  let mctu := max_combined_texture_image_units_field g renderer
  let ani := max_texture_max_anisotropy_field g extensions
  let mtbs := max_texture_buffer_size_field g version extensions
  let mvd := max_viewport_dims_field g
  let mdb := max_draw_buffers_field g version extensions
  let mpv := max_patch_vertices_field g version extensions
  let macb := max_indexed_atomic_counter_buffer_field g version
  let mssb := max_indexed_shader_storage_buffer_field g version extensions
  let mtfb := max_indexed_transform_feedback_buffer_field g version extensions
  let mub := max_indexed_uniform_buffer_field g version extensions
  let mcwg := max_compute_work_group_count_field g version extensions
  match clc.1, rel.1 with
  | some clcv, some relv =>
      some
        ({ supported_glsl_versions := glsl.1
           robustness := rob.1
           can_lose_context := clcv
           release_behavior := relv
           stereo := ste.1
           srgb := srg.1
           depth_bits := dep.1
           stencil_bits := sten.1
           max_combined_texture_image_units := mctu.1
           max_texture_max_anisotropy := ani.1
           max_texture_buffer_size := mtbs.1
           max_viewport_dims := mvd.1
           max_draw_buffers := mdb.1
           max_patch_vertices := mpv.1
           max_indexed_atomic_counter_buffer := macb.1
           max_indexed_shader_storage_buffer := mssb.1
           max_indexed_transform_feedback_buffer := mtfb.1
           max_indexed_uniform_buffer := mub.1
           max_compute_work_group_count := mcwg.1 },
         [Query.getString GL_RENDERER] ++ glsl.2 ++ rob.2 ++ clc.2 ++ rel.2 ++ ste.2 ++
           srg.2 ++ dep.2 ++ sten.2 ++ mctu.2 ++ ani.2 ++ mtbs.2 ++ mvd.2 ++ mdb.2 ++
           mpv.2 ++ macb.2 ++ mssb.2 ++ mtfb.2 ++ mub.2 ++ mcwg.2)
  | _, _ => none

/-- A concrete oracle whose every query returns zero and whose renderer string
names a generic GPU. -/
def glZero : Gl :=
  { getString := fun _ => "Generic GPU"
    getIntegerv := fun _ => 0
    getIntegerv2 := fun _ => (0, 0)
    getBooleanv := fun _ => 0
    getFloatv := fun _ => 0
    getIntegeri := fun _ _ => 0
    getFBParam := fun _ _ _ => 0 }

/-- The extension set with every extension absent. -/
def extNone : ExtensionsList :=
  ⟨false, false, false, false, false, false, false, false, false, false, false, false,
   false, false, false, false, false, false, false, false, false, false, false⟩

/-- Extension set holding only gl_ext_framebuffer_srgb. -/
def extOnlySrgb : ExtensionsList := { extNone with gl_ext_framebuffer_srgb := true }

/-- Extension set holding only gl_arb_robustness. -/
def extOnlyArbRobustness : ExtensionsList := { extNone with gl_arb_robustness := true }

/-- Extension set holding gl_khr_context_flush_control and gl_khr_robustness. -/
def extFlushAndKhr : ExtensionsList :=
  { extNone with gl_khr_context_flush_control := true, gl_khr_robustness := true }

/-- Oracle whose reset-notification query reports the nonconforming vendor
value 0x31BE. -/
def glReset31BE : Gl :=
  { glZero with getIntegerv := fun t => if t = GL_RESET_NOTIFICATION_STRATEGY then 0x31BE else 0 }

/-- Oracle whose integer queries all report 48. -/
def gl48 : Gl := { glZero with getIntegerv := fun _ => 48 }

/-- Oracle whose attachment type probe reports a renderbuffer and whose size
probes report 24. -/
def glFB : Gl :=
  { glZero with getFBParam := fun _ _ p =>
      if p = GL_FRAMEBUFFER_ATTACHMENT_OBJECT_TYPE then 0x8D41 else 24 }

/-- Oracle whose integer queries report the undocumented enum value 0x1234. -/
def glBadEnum : Gl := { glZero with getIntegerv := fun _ => 0x1234 }

/-- Helper: a version comparison across different API kinds never holds. -/
theorem vge_of_api_ne (a b : Version) (h : ¬ a.api = b.api) : vge a b = false := by
  simp [vge, h]

/-- Helper: a desktop threshold with a larger major number than the version's
is never reached. -/
theorem vge_gl_false_of_major_lt (v : Version) (m n : Nat) (h : v.major < m) :
    vge v ⟨Api.Gl, m, n⟩ = false := by
  apply Bool.eq_false_iff.mpr
  intro hv
  simp only [vge, Bool.and_eq_true, Bool.or_eq_true, decide_eq_true_eq] at hv
  obtain ⟨_, hnum⟩ := hv
  omega

/-- Helper: vge is monotone along vlt within one API kind. -/
theorem vge_mono_of_vlt (v1 v2 t : Version) (hlt : vlt v1 v2 = true)
    (h1 : vge v1 t = true) : vge v2 t = true := by
  simp only [vlt, Bool.and_eq_true, Bool.or_eq_true, decide_eq_true_eq] at hlt
  simp only [vge, Bool.and_eq_true, Bool.or_eq_true, decide_eq_true_eq] at h1 ⊢
  obtain ⟨hapi12, hnum12⟩ := hlt
  obtain ⟨hapi1t, hnum1t⟩ := h1
  exact ⟨hapi12 ▸ hapi1t, by omega⟩

/-- Claim C1: on the embedded profile, when the shader-compiler probe reports
absent, get_supported_glsl returns the empty sequence whatever the version and
extension values are, and the compiler probe is the only query issued (no
per-pair gate runs). -/
theorem glsl_embedded_without_compiler_empty (g : Gl) (v : Version) (e : ExtensionsList)
    (hapi : v.api = Api.GlEs) (hc : g.getBooleanv GL_SHADER_COMPILER = 0) :
    get_supported_glsl g v e = ([], [Query.getBooleanv GL_SHADER_COMPILER]) := by
  simp [get_supported_glsl, hapi, hc]

/-- Witness for C1 at an embedded 3.1 context whose oracle reports no
compiler. -/
theorem glsl_embedded_without_compiler_empty_witness :
    (Version.mk Api.GlEs 3 1).api = Api.GlEs ∧
    glZero.getBooleanv GL_SHADER_COMPILER = 0 ∧
    get_supported_glsl glZero ⟨Api.GlEs, 3, 1⟩ extNone =
      ([], [Query.getBooleanv GL_SHADER_COMPILER]) :=
  ⟨rfl, rfl, glsl_embedded_without_compiler_empty glZero ⟨Api.GlEs, 3, 1⟩ extNone rfl rfl⟩

/-- Claim C2: with the can_lose_context gate open, the nonconforming vendor
value 0x31BE decodes to false rather than hitting the unreachable! arm, and
the documented tokens LOSE_CONTEXT_ON_RESET and NO_RESET_NOTIFICATION decode
to true and false. -/
theorem can_lose_context_token_decoding (g : Gl) (v : Version) (e : ExtensionsList)
    (hgate : (vge v ⟨Api.Gl, 4, 5⟩ || e.gl_khr_robustness ||
              e.gl_arb_robustness || e.gl_ext_robustness) = true) :
    (toGLenum (g.getIntegerv GL_RESET_NOTIFICATION_STRATEGY) = 0x31BE →
       (can_lose_context_field g v e).1 = some false) ∧
    (toGLenum (g.getIntegerv GL_RESET_NOTIFICATION_STRATEGY) = GL_LOSE_CONTEXT_ON_RESET →
       (can_lose_context_field g v e).1 = some true) ∧
    (toGLenum (g.getIntegerv GL_RESET_NOTIFICATION_STRATEGY) = GL_NO_RESET_NOTIFICATION →
       (can_lose_context_field g v e).1 = some false) := by
  refine ⟨fun h => ?_, fun h => ?_, fun h => ?_⟩ <;>
    simp [can_lose_context_field, hgate, h,
          GL_LOSE_CONTEXT_ON_RESET, GL_NO_RESET_NOTIFICATION]

/-- Witness for C2 at a desktop 4.5 context whose oracle reports 0x31BE. -/
theorem can_lose_context_token_decoding_witness :
    (vge ⟨Api.Gl, 4, 5⟩ ⟨Api.Gl, 4, 5⟩ || extNone.gl_khr_robustness ||
     extNone.gl_arb_robustness || extNone.gl_ext_robustness) = true ∧
    toGLenum (glReset31BE.getIntegerv GL_RESET_NOTIFICATION_STRATEGY) = 0x31BE ∧
    (can_lose_context_field glReset31BE ⟨Api.Gl, 4, 5⟩ extNone).1 = some false :=
  ⟨by decide, rfl,
   (can_lose_context_token_decoding glReset31BE ⟨Api.Gl, 4, 5⟩ extNone (by decide)).1 rfl⟩

/-- Claim C3: the recorded max_combined_texture_image_units is min(raw, 32)
whenever the renderer string contains Radeon (raw 48 gives 32) and the raw
queried value unchanged otherwise. -/
theorem radeon_texture_unit_clamp (g : Gl) (renderer : String) :
    (strContains renderer "Radeon" = true →
       (max_combined_texture_image_units_field g renderer).1 =
         min (g.getIntegerv GL_MAX_COMBINED_TEXTURE_IMAGE_UNITS) 32) ∧
    (strContains renderer "Radeon" = false →
       (max_combined_texture_image_units_field g renderer).1 =
         g.getIntegerv GL_MAX_COMBINED_TEXTURE_IMAGE_UNITS) ∧
    (strContains renderer "Radeon" = true →
       g.getIntegerv GL_MAX_COMBINED_TEXTURE_IMAGE_UNITS = 48 →
       (max_combined_texture_image_units_field g renderer).1 = 32) := by
  refine ⟨fun h => ?_, fun h => ?_, fun h h48 => ?_⟩
  · simp [max_combined_texture_image_units_field, h]
  · simp [max_combined_texture_image_units_field, h]
  · simp [max_combined_texture_image_units_field, h, h48]

/-- Witness for C3 at a Radeon renderer string with raw value 48 and at a
non-Radeon renderer string. -/
theorem radeon_texture_unit_clamp_witness :
    strContains "AMD Radeon HD 7870" "Radeon" = true ∧
    gl48.getIntegerv GL_MAX_COMBINED_TEXTURE_IMAGE_UNITS = 48 ∧
    (max_combined_texture_image_units_field gl48 "AMD Radeon HD 7870").1 = 32 ∧
    strContains "Generic GPU" "Radeon" = false ∧
    (max_combined_texture_image_units_field gl48 "Generic GPU").1 = 48 :=
  ⟨by decide, by decide,
   (radeon_texture_unit_clamp gl48 "AMD Radeon HD 7870").2.2 (by decide) (by decide),
   by decide,
   by rw [(radeon_texture_unit_clamp gl48 "Generic GPU").2.1 (by decide)]; decide⟩

/-- Claim C10: a desktop context below version 3.0 resolves robustness to
false with no query, even with gl_arb_robustness present, provided the khr and
ext robustness extensions (the only ones the boolean-query gate accepts) are
absent. -/
theorem robustness_pre30_no_query (g : Gl) (v : Version) (e : ExtensionsList)
    (hapi : v.api = Api.Gl) (hmaj : v.major < 3)
    (hkhr : e.gl_khr_robustness = false) (hext : e.gl_ext_robustness = false) :
    robustness_field g v e = (false, []) := by
  have h45 : vge v ⟨Api.Gl, 4, 5⟩ = false := vge_gl_false_of_major_lt v 4 5 (by omega)
  have h32 : vge v ⟨Api.GlEs, 3, 2⟩ = false := by
    apply vge_of_api_ne
    rw [hapi]
    simp
  have h30 : vge v ⟨Api.Gl, 3, 0⟩ = false := vge_gl_false_of_major_lt v 3 0 hmaj
  simp [robustness_field, h45, h32, h30, hkhr, hext]

/-- Witness for C10 at a desktop 2.1 context with only gl_arb_robustness
present. -/
theorem robustness_pre30_no_query_witness :
    (Version.mk Api.Gl 2 1).api = Api.Gl ∧
    (Version.mk Api.Gl 2 1).major < 3 ∧
    extOnlyArbRobustness.gl_arb_robustness = true ∧
    extOnlyArbRobustness.gl_khr_robustness = false ∧
    extOnlyArbRobustness.gl_ext_robustness = false ∧
    robustness_field glZero ⟨Api.Gl, 2, 1⟩ extOnlyArbRobustness = (false, []) :=
  ⟨rfl, by decide, rfl, rfl, rfl,
   robustness_pre30_no_query glZero ⟨Api.Gl, 2, 1⟩ extOnlyArbRobustness rfl (by decide) rfl rfl⟩

/-- Claim C4: on the framebuffer-attachment path (desktop 3.0 and up without
gl_arb_compatibility) a type probe answering NONE makes depth_bits and
stencil_bits resolve to none with exactly one framebuffer-attachment call;
otherwise the size query is issued too and a nonzero answer is recorded as
some of its u16 cast. -/
theorem fb_attachment_bits_short_circuit (g : Gl) (v : Version) (e : ExtensionsList)
    (hv : vge v ⟨Api.Gl, 3, 0⟩ = true) (hc : e.gl_arb_compatibility = false) :
    (toGLenum (g.getFBParam GL_FRAMEBUFFER GL_DEPTH GL_FRAMEBUFFER_ATTACHMENT_OBJECT_TYPE) =
        GL_NONE →
      (depth_bits_field g v e).1 = none ∧
      ((depth_bits_field g v e).2.filter Query.isFBParam).length = 1) ∧
    (toGLenum (g.getFBParam GL_FRAMEBUFFER GL_DEPTH GL_FRAMEBUFFER_ATTACHMENT_OBJECT_TYPE) ≠
        GL_NONE →
      Query.getFBParam GL_FRAMEBUFFER GL_DEPTH GL_FRAMEBUFFER_ATTACHMENT_DEPTH_SIZE ∈
        (depth_bits_field g v e).2 ∧
      (g.getFBParam GL_FRAMEBUFFER GL_DEPTH GL_FRAMEBUFFER_ATTACHMENT_DEPTH_SIZE ≠ 0 →
        (depth_bits_field g v e).1 =
          some (toU16 (g.getFBParam GL_FRAMEBUFFER GL_DEPTH
            GL_FRAMEBUFFER_ATTACHMENT_DEPTH_SIZE)))) ∧
    (toGLenum (g.getFBParam GL_FRAMEBUFFER GL_STENCIL GL_FRAMEBUFFER_ATTACHMENT_OBJECT_TYPE) =
        GL_NONE →
      (stencil_bits_field g v e).1 = none ∧
      ((stencil_bits_field g v e).2.filter Query.isFBParam).length = 1) ∧
    (toGLenum (g.getFBParam GL_FRAMEBUFFER GL_STENCIL GL_FRAMEBUFFER_ATTACHMENT_OBJECT_TYPE) ≠
        GL_NONE →
      Query.getFBParam GL_FRAMEBUFFER GL_STENCIL GL_FRAMEBUFFER_ATTACHMENT_STENCIL_SIZE ∈
        (stencil_bits_field g v e).2 ∧
      (g.getFBParam GL_FRAMEBUFFER GL_STENCIL GL_FRAMEBUFFER_ATTACHMENT_STENCIL_SIZE ≠ 0 →
        (stencil_bits_field g v e).1 =
          some (toU16 (g.getFBParam GL_FRAMEBUFFER GL_STENCIL
            GL_FRAMEBUFFER_ATTACHMENT_STENCIL_SIZE)))) := by
  refine ⟨fun h => ?_, fun h => ?_, fun h => ?_, fun h => ?_⟩
  · simp [depth_bits_field, hv, hc, h, bitsOfValue, Query.isFBParam]
  · constructor
    · simp [depth_bits_field, hv, hc, h, bitsOfValue]
    · intro hnz
      simp [depth_bits_field, hv, hc, h, bitsOfValue, hnz]
  · simp [stencil_bits_field, hv, hc, h, bitsOfValue, Query.isFBParam]
  · constructor
    · simp [stencil_bits_field, hv, hc, h, bitsOfValue]
    · intro hnz
      simp [stencil_bits_field, hv, hc, h, bitsOfValue, hnz]

/-- Witness for C4: the all-zero oracle hits the NONE short-circuit for both
fields; the renderbuffer oracle with size 24 takes the size query and records
some 24. -/
theorem fb_attachment_bits_short_circuit_witness :
    vge ⟨Api.Gl, 3, 0⟩ ⟨Api.Gl, 3, 0⟩ = true ∧
    extNone.gl_arb_compatibility = false ∧
    ((depth_bits_field glZero ⟨Api.Gl, 3, 0⟩ extNone).1 = none ∧
     ((depth_bits_field glZero ⟨Api.Gl, 3, 0⟩ extNone).2.filter Query.isFBParam).length = 1) ∧
    ((stencil_bits_field glZero ⟨Api.Gl, 3, 0⟩ extNone).1 = none ∧
     ((stencil_bits_field glZero ⟨Api.Gl, 3, 0⟩ extNone).2.filter Query.isFBParam).length = 1) ∧
    (depth_bits_field glFB ⟨Api.Gl, 3, 0⟩ extNone).1 =
      some (toU16 (glFB.getFBParam GL_FRAMEBUFFER GL_DEPTH
        GL_FRAMEBUFFER_ATTACHMENT_DEPTH_SIZE)) :=
  ⟨by decide, rfl,
   (fb_attachment_bits_short_circuit glZero ⟨Api.Gl, 3, 0⟩ extNone (by decide) rfl).1
     (by decide),
   (fb_attachment_bits_short_circuit glZero ⟨Api.Gl, 3, 0⟩ extNone (by decide) rfl).2.2.1
     (by decide),
   ((fb_attachment_bits_short_circuit glFB ⟨Api.Gl, 3, 0⟩ extNone (by decide) rfl).2.1
     (by decide)).2 (by decide)⟩

/-- Claim C5: within one API kind, availability under a gate that is solely a
lower-bound version comparison is monotone in the version: any threshold open
under the smaller version is open under the larger, and in particular the
max_indexed_atomic_counter_buffer query path taken under the smaller version
is taken under the larger. -/
theorem version_gate_monotone (g : Gl) (v1 v2 : Version) (hlt : vlt v1 v2 = true) :
    (∀ t, vge v1 t = true → vge v2 t = true) ∧
    ((max_indexed_atomic_counter_buffer_field g v1).2 ≠ [] →
      (max_indexed_atomic_counter_buffer_field g v2).2 ≠ []) := by
  refine ⟨fun t => vge_mono_of_vlt v1 v2 t hlt, fun hne => ?_⟩
  by_cases hgate : vge v1 ⟨Api.Gl, 4, 2⟩ = true
  · have h2 := vge_mono_of_vlt v1 v2 _ hlt hgate
    simp [max_indexed_atomic_counter_buffer_field, h2]
  · rw [Bool.not_eq_true] at hgate
    simp [max_indexed_atomic_counter_buffer_field, hgate] at hne

/-- Witness for C5 at desktop versions 4.2 < 4.4 and the 4.2 atomic-counter
threshold. -/
theorem version_gate_monotone_witness :
    vlt ⟨Api.Gl, 4, 2⟩ ⟨Api.Gl, 4, 4⟩ = true ∧
    vge ⟨Api.Gl, 4, 4⟩ ⟨Api.Gl, 4, 2⟩ = true ∧
    (max_indexed_atomic_counter_buffer_field glZero ⟨Api.Gl, 4, 4⟩).2 ≠ [] :=
  ⟨by decide,
   (version_gate_monotone glZero ⟨Api.Gl, 4, 2⟩ ⟨Api.Gl, 4, 4⟩ (by decide)).1
     ⟨Api.Gl, 4, 2⟩ (by decide),
   (version_gate_monotone glZero ⟨Api.Gl, 4, 2⟩ ⟨Api.Gl, 4, 4⟩ (by decide)).2 (by decide)⟩

/-- Claim C6: no version of one API kind ever satisfies a threshold of the
other kind, and the fields gated on desktop thresholds resolve identically
across any two embedded versions (the embedded version number never leaks into
a desktop gate), with the symmetric statement for embedded thresholds. -/
theorem cross_kind_gate_independence (g : Gl) (e : ExtensionsList) :
    (∀ v maj mnr, v.api = Api.GlEs → vge v ⟨Api.Gl, maj, mnr⟩ = false) ∧
    (∀ v maj mnr, v.api = Api.Gl → vge v ⟨Api.GlEs, maj, mnr⟩ = false) ∧
    (∀ v1 v2 : Version, v1.api = Api.GlEs → v2.api = Api.GlEs →
      max_indexed_atomic_counter_buffer_field g v1 =
        max_indexed_atomic_counter_buffer_field g v2 ∧
      max_indexed_uniform_buffer_field g v1 e = max_indexed_uniform_buffer_field g v2 e ∧
      max_indexed_shader_storage_buffer_field g v1 e =
        max_indexed_shader_storage_buffer_field g v2 e ∧
      max_indexed_transform_feedback_buffer_field g v1 e =
        max_indexed_transform_feedback_buffer_field g v2 e ∧
      max_patch_vertices_field g v1 e = max_patch_vertices_field g v2 e) := by
  have cross : ∀ (v : Version) maj mnr, v.api = Api.GlEs →
      vge v ⟨Api.Gl, maj, mnr⟩ = false := by
    intro v maj mnr h
    apply vge_of_api_ne
    rw [h]
    simp
  refine ⟨cross, fun v maj mnr h => ?_, fun v1 v2 h1 h2 => ?_⟩
  · apply vge_of_api_ne
    rw [h]
    simp
  · refine ⟨?_, ?_, ?_, ?_, ?_⟩ <;>
      simp [max_indexed_atomic_counter_buffer_field, max_indexed_uniform_buffer_field,
            max_indexed_shader_storage_buffer_field,
            max_indexed_transform_feedback_buffer_field, max_patch_vertices_field,
            cross v1 _ _ h1, cross v2 _ _ h2]

/-- Witness for C6: a large embedded version never opens a desktop threshold,
and the atomic-counter field is identical across two embedded versions. -/
theorem cross_kind_gate_independence_witness :
    vge ⟨Api.GlEs, 99, 0⟩ ⟨Api.Gl, 4, 2⟩ = false ∧
    vge ⟨Api.Gl, 99, 0⟩ ⟨Api.GlEs, 3, 1⟩ = false ∧
    max_indexed_atomic_counter_buffer_field glZero ⟨Api.GlEs, 2, 0⟩ =
      max_indexed_atomic_counter_buffer_field glZero ⟨Api.GlEs, 99, 9⟩ :=
  ⟨(cross_kind_gate_independence glZero extNone).1 ⟨Api.GlEs, 99, 0⟩ 4 2 rfl,
   (cross_kind_gate_independence glZero extNone).2.1 ⟨Api.Gl, 99, 0⟩ 3 1 rfl,
   ((cross_kind_gate_independence glZero extNone).2.2 ⟨Api.GlEs, 2, 0⟩ ⟨Api.GlEs, 99, 9⟩
     rfl rfl).1⟩

/-- Extension set holding only gl_arb_compatibility. -/
def extCompat : ExtensionsList := { extNone with gl_arb_compatibility := true }

/-- Counterexample to claim C7: at desktop 3.0 with gl_ext_framebuffer_srgb
present, the native-version gate holds yet srgb issues the extension boolean
query, not the version-path framebuffer-attachment query. -/
theorem srgb_version_priority_counterexample :
    vge ⟨Api.Gl, 3, 0⟩ ⟨Api.Gl, 3, 0⟩ = true ∧
    extOnlySrgb.gl_ext_framebuffer_srgb = true ∧
    (srgb_field glZero ⟨Api.Gl, 3, 0⟩ extOnlySrgb).2 =
      [Query.getBooleanv GL_FRAMEBUFFER_SRGB_CAPABLE_EXT] ∧
    Query.getBooleanv GL_FRAMEBUFFER_SRGB_CAPABLE_EXT ≠
      Query.getFBParam GL_FRAMEBUFFER GL_BACK_LEFT GL_FRAMEBUFFER_ATTACHMENT_COLOR_ENCODING :=
  ⟨by decide, rfl, by decide, by decide⟩

/-- Claim C7 as amended: the branches are tried in fixed order, but the
version-based path of srgb (and of depth_bits) is additionally guarded by the
absence of the overriding extension; when that extension is present the
extension path is selected even though the version gate holds. -/
theorem srgb_depth_gate_priority_amended (g : Gl) (v : Version) (e : ExtensionsList) :
    (vge v ⟨Api.Gl, 3, 0⟩ = true → e.gl_ext_framebuffer_srgb = false →
       (srgb_field g v e).2 =
         [Query.getFBParam GL_FRAMEBUFFER GL_BACK_LEFT
            GL_FRAMEBUFFER_ATTACHMENT_COLOR_ENCODING]) ∧
    (e.gl_ext_framebuffer_srgb = true →
       (srgb_field g v e).2 = [Query.getBooleanv GL_FRAMEBUFFER_SRGB_CAPABLE_EXT]) ∧
    (vge v ⟨Api.Gl, 3, 0⟩ = true → e.gl_arb_compatibility = false →
       (depth_bits_field g v e).2.head? =
         some (Query.getFBParam GL_FRAMEBUFFER GL_DEPTH
            GL_FRAMEBUFFER_ATTACHMENT_OBJECT_TYPE)) ∧
    (e.gl_arb_compatibility = true →
       (depth_bits_field g v e).2 = [Query.getIntegerv GL_DEPTH_BITS]) := by
  refine ⟨fun hv hs => ?_, fun hs => ?_, fun hv hc => ?_, fun hc => ?_⟩
  · simp [srgb_field, hv, hs]
  · simp [srgb_field, hs]
  · by_cases hty :
      toGLenum (g.getFBParam GL_FRAMEBUFFER GL_DEPTH GL_FRAMEBUFFER_ATTACHMENT_OBJECT_TYPE) =
        GL_NONE <;>
      simp [depth_bits_field, hv, hc, hty]
  · simp [depth_bits_field, hc]

/-- Witness for the amended C7 at desktop 3.0 under the three extension
configurations. -/
theorem srgb_depth_gate_priority_amended_witness :
    (srgb_field glZero ⟨Api.Gl, 3, 0⟩ extNone).2 =
      [Query.getFBParam GL_FRAMEBUFFER GL_BACK_LEFT
         GL_FRAMEBUFFER_ATTACHMENT_COLOR_ENCODING] ∧
    (srgb_field glZero ⟨Api.Gl, 3, 0⟩ extOnlySrgb).2 =
      [Query.getBooleanv GL_FRAMEBUFFER_SRGB_CAPABLE_EXT] ∧
    (depth_bits_field glZero ⟨Api.Gl, 3, 0⟩ extCompat).2 =
      [Query.getIntegerv GL_DEPTH_BITS] :=
  ⟨(srgb_depth_gate_priority_amended glZero ⟨Api.Gl, 3, 0⟩ extNone).1 (by decide) rfl,
   (srgb_depth_gate_priority_amended glZero ⟨Api.Gl, 3, 0⟩ extOnlySrgb).2.1 rfl,
   (srgb_depth_gate_priority_amended glZero ⟨Api.Gl, 3, 0⟩ extCompat).2.2.2 rfl⟩

/-- Counterexample to claim C8: with no gate open, release_behavior falls back
to the Flush variant, which is not the None variant the claimed fallback set
offers for that field. -/
theorem release_behavior_fallback_counterexample :
    extNone.gl_khr_context_flush_control = false ∧
    release_behavior_field glZero extNone = (some ReleaseBehavior.Flush, []) ∧
    ReleaseBehavior.Flush ≠ ReleaseBehavior.None :=
  ⟨rfl, rfl, by decide⟩

/-- Claim C8 as amended: when none of a field's gates match, a fixed
field-specific fallback drawn from 0, false, none, 1, the empty list, or the
Flush variant is installed and no query is issued; in particular
max_draw_buffers falls back to 1, the supported GLSL list to the empty list,
and release_behavior to Flush. -/
theorem fallback_constants_amended (g : Gl) (v : Version) (e : ExtensionsList) :
    ((vge v ⟨Api.Gl, 2, 0⟩ || vge v ⟨Api.GlEs, 3, 0⟩ ||
      e.gl_ati_draw_buffers || e.gl_arb_draw_buffers) = false →
       max_draw_buffers_field g v e = (1, [])) ∧
    (e.gl_khr_context_flush_control = false →
       release_behavior_field g e = (some ReleaseBehavior.Flush, [])) ∧
    get_supported_glsl g ⟨Api.Gl, 1, 0⟩ extNone = ([], []) ∧
    (vge v ⟨Api.Gl, 4, 2⟩ = false →
       max_indexed_atomic_counter_buffer_field g v = (0, [])) ∧
    (e.gl_ext_texture_filter_anisotropic = false →
       max_texture_max_anisotropy_field g e = (none, [])) ∧
    ((vge v ⟨Api.Gl, 3, 0⟩ || e.gl_arb_texture_buffer_object ||
      e.gl_ext_texture_buffer_object || e.gl_oes_texture_buffer ||
      e.gl_ext_texture_buffer) = false →
       max_texture_buffer_size_field g v e = (none, [])) ∧
    ((vge v ⟨Api.Gl, 4, 5⟩ || e.gl_khr_robustness || e.gl_arb_robustness ||
      e.gl_ext_robustness) = false →
       can_lose_context_field g v e = (some false, [])) ∧
    (vge v ⟨Api.Gl, 1, 0⟩ = false → stereo_field g v = (false, [])) ∧
    ((vge v ⟨Api.Gl, 4, 5⟩ || vge v ⟨Api.GlEs, 3, 2⟩ ||
      (vge v ⟨Api.Gl, 3, 0⟩ && e.gl_arb_robustness)) = false →
     (e.gl_khr_robustness || e.gl_ext_robustness) = false →
       robustness_field g v e = (false, [])) := by
  refine ⟨fun h => ?_, fun h => ?_, ?_, fun h => ?_, fun h => ?_, fun h => ?_,
          fun h => ?_, fun h => ?_, fun h1 h2 => ?_⟩
  · simp [max_draw_buffers_field, h]
  · simp [release_behavior_field, h]
  · simp [get_supported_glsl, glsl_version_table, vge, vle, veq, extNone, List.foldl]
  · simp [max_indexed_atomic_counter_buffer_field, h]
  · simp [max_texture_max_anisotropy_field, h]
  · simp [max_texture_buffer_size_field, h]
  · simp [can_lose_context_field, h]
  · simp [stereo_field, h]
  · simp [robustness_field, h1, h2]

/-- Witness for the amended C8 at a desktop 1.0 context with no extensions. -/
theorem fallback_constants_amended_witness :
    max_draw_buffers_field glZero ⟨Api.Gl, 1, 0⟩ extNone = (1, []) ∧
    release_behavior_field glZero extNone = (some ReleaseBehavior.Flush, []) ∧
    get_supported_glsl glZero ⟨Api.Gl, 1, 0⟩ extNone = ([], []) ∧
    max_indexed_atomic_counter_buffer_field glZero ⟨Api.Gl, 1, 0⟩ = (0, []) ∧
    max_texture_max_anisotropy_field glZero extNone = (none, []) :=
  ⟨(fallback_constants_amended glZero ⟨Api.Gl, 1, 0⟩ extNone).1 (by decide),
   (fallback_constants_amended glZero ⟨Api.Gl, 1, 0⟩ extNone).2.1 rfl,
   (fallback_constants_amended glZero ⟨Api.Gl, 1, 0⟩ extNone).2.2.1,
   (fallback_constants_amended glZero ⟨Api.Gl, 1, 0⟩ extNone).2.2.2.1 (by decide),
   (fallback_constants_amended glZero ⟨Api.Gl, 1, 0⟩ extNone).2.2.2.2.1 rfl⟩

/-- Claim C9: for the enum-decoded fields release_behavior and
can_lose_context, a queried value matching no documented token (the vendor
alias 0x31BE of the reset-notification field excepted) aborts resolution: the
decoded value is none, the model of the unreachable! panic. -/
theorem enum_decode_mismatch_aborts (g : Gl) (v : Version) (e : ExtensionsList)
    (hrel : e.gl_khr_context_flush_control = true)
    (hgate : (vge v ⟨Api.Gl, 4, 5⟩ || e.gl_khr_robustness ||
              e.gl_arb_robustness || e.gl_ext_robustness) = true) :
    (toGLenum (g.getIntegerv GL_CONTEXT_RELEASE_BEHAVIOR) ≠ GL_NONE →
     toGLenum (g.getIntegerv GL_CONTEXT_RELEASE_BEHAVIOR) ≠
       GL_CONTEXT_RELEASE_BEHAVIOR_FLUSH →
       (release_behavior_field g e).1 = none) ∧
    (toGLenum (g.getIntegerv GL_RESET_NOTIFICATION_STRATEGY) ≠ GL_LOSE_CONTEXT_ON_RESET →
     toGLenum (g.getIntegerv GL_RESET_NOTIFICATION_STRATEGY) ≠ GL_NO_RESET_NOTIFICATION →
     toGLenum (g.getIntegerv GL_RESET_NOTIFICATION_STRATEGY) ≠ 0x31BE →
       (can_lose_context_field g v e).1 = none) := by
  constructor
  · intro h1 h2
    simp [release_behavior_field, hrel, h1, h2]
  · intro h1 h2 h3
    simp [can_lose_context_field, hgate, h1, h2, h3]

/-- Witness for C9 at an oracle answering the undocumented value 0x1234 with
both gates open. -/
theorem enum_decode_mismatch_aborts_witness :
    extFlushAndKhr.gl_khr_context_flush_control = true ∧
    toGLenum (glBadEnum.getIntegerv GL_CONTEXT_RELEASE_BEHAVIOR) = 0x1234 ∧
    (release_behavior_field glBadEnum extFlushAndKhr).1 = none ∧
    (can_lose_context_field glBadEnum ⟨Api.Gl, 1, 0⟩ extFlushAndKhr).1 = none :=
  ⟨rfl, rfl,
   (enum_decode_mismatch_aborts glBadEnum ⟨Api.Gl, 1, 0⟩ extFlushAndKhr rfl (by decide)).1
     (by decide) (by decide),
   (enum_decode_mismatch_aborts glBadEnum ⟨Api.Gl, 1, 0⟩ extFlushAndKhr rfl (by decide)).2
     (by decide) (by decide) (by decide)⟩
